import Mathlib

/-!
Shallow embedding of the fleet-maintenance backend (Flask + SQLAlchemy).

The relational store is modelled as lists of rows; each HTTP handler from
`src/routes/` becomes a pure function `State → inputs → Response × State`.
Monetary amounts (`Numeric` columns, Python floats) are modelled as `ℚ`;
dates and datetimes as `Int` (days since an epoch, the clock passed in as a
`today`/`now` parameter); JSON request bodies as structures of `Option`
fields where `none` means the key is absent (a JSON `null` for an updatable
field is not modelled).

Python truthiness: `data.get(k)` of a missing key is `None` (falsy), and a
present numeric `0` or empty string is also falsy; the handlers' required-
field checks (`if not data.get(k)`) therefore treat `0` as missing.

SQLAlchemy session semantics: `db.session` has its default configuration
(`db = SQLAlchemy()` in `models.py`), so `autoflush` is on: an aggregate
query issued after `db.session.add(row)` flushes the pending row first, and
the aggregate therefore already includes it.  The embeddings of
`add_labor_entry` and `add_parts_used` reproduce this.  A request that
returns without committing loses its uncommitted attribute writes (the
session is rolled back on teardown), which the embedding reproduces by
returning the pre-state in those branches.
-/

namespace Fleet

/-- `models.User` (fields the handlers consult: primary key and role). -/
structure User where
  id : Nat
  role : String
  isActive : Bool := true
deriving DecidableEq

/-- `models.Workshop`. -/
structure Workshop where
  id : Nat
  name : String
  location : String
  capacity : Int := 5
  specializations : Option String := none
  contactPhone : Option String := none
  contactEmail : Option String := none
  isActive : Bool := true
deriving DecidableEq

/-- `models.Asset` (the attributes the modelled handlers touch). -/
structure Asset where
  id : Nat
  registration : String
  status : String := "active"
  currentMileage : Int := 0
  currentLocation : Option String := none
deriving DecidableEq

/-- `models.MaintenanceSchedule` (attributes used by `get_due_soon`). -/
structure MaintenanceSchedule where
  id : Nat
  assetId : Nat
  isActive : Bool := true
  nextDueDate : Option Int := none
deriving DecidableEq

/-- `models.JobCard`. -/
structure JobCard where
  id : Nat
  jobNumber : String
  assetId : Nat
  workshopId : Nat
  jobType : String := "unplanned"
  title : String
  diagnosis : Option String := none
  workPerformed : Option String := none
  status : String := "pending"
  priority : String := "medium"
  actualStart : Option Int := none
  actualEnd : Option Int := none
  estimatedCost : Option ℚ := none
  actualCost : Option ℚ := none
  laborCost : Option ℚ := none
  partsCost : Option ℚ := none
  mileageAtService : Option Int := none
  assignedTo : Option Nat := none
  createdBy : Option Nat := none
  updatedAt : Option Int := none
  completedAt : Option Int := none
deriving DecidableEq

/-- `models.LaborEntry`. -/
structure LaborEntry where
  jobCardId : Nat
  technicianId : Nat
  workDate : Int
  hoursWorked : ℚ
  hourlyRate : ℚ
  totalCost : ℚ
  notes : Option String := none
deriving DecidableEq

/-- `models.Part` (inventory attributes; `quantity_in_stock` is a Python
`int`, hence `Int` here — nothing in the schema forbids negative values). -/
structure Part where
  id : Nat
  partNumber : String
  name : String
  description : Option String := none
  category : Option String := none
  quantityInStock : Int := 0
  reorderLevel : Int := 5
  unitCost : Option ℚ := none
  storageLocation : Option String := none
deriving DecidableEq

/-- `models.PartsUsed`. -/
structure PartsUsed where
  jobCardId : Nat
  partId : Nat
  quantity : Int
  unitCost : Option ℚ
  totalCost : ℚ
  notes : Option String := none
deriving DecidableEq

/-- `models.AuditLog` (identifying fields; the serialized detail payload is
not modelled). -/
structure AuditLog where
  userId : Nat
  action : String
  entityType : String
  entityId : Nat
deriving DecidableEq

/-- The relational store. -/
structure State where
  users : List User := []
  workshops : List Workshop := []
  assets : List Asset := []
  schedules : List MaintenanceSchedule := []
  parts : List Part := []
  jobCards : List JobCard := []
  laborEntries : List LaborEntry := []
  partsUsed : List PartsUsed := []
  auditLogs : List AuditLog := []
deriving DecidableEq

/-- An HTTP response, reduced to status code and error message. -/
structure Response where
  status : Nat
  error : Option String := none
deriving DecidableEq

/-- `Model.query.get(pk)`: fetch a row by primary key. -/
def findJobCard (s : State) (i : Nat) : Option JobCard :=
  s.jobCards.find? (fun j => j.id == i)

/-- `Part.query.get(pk)`. -/
def findPart (s : State) (i : Nat) : Option Part :=
  s.parts.find? (fun p => p.id == i)

/-- `Asset.query.get(pk)`. -/
def findAsset (s : State) (i : Nat) : Option Asset :=
  s.assets.find? (fun a => a.id == i)

/-- Python truthiness of an optional integer field (`None` and `0` falsy). -/
def falsyNat (o : Option Nat) : Bool := o.getD 0 == 0

/-- Python truthiness of an optional integer field (`None` and `0` falsy). -/
def falsyInt (o : Option Int) : Bool := o.getD 0 == 0

/-- Python truthiness of an optional numeric field (`None` and `0` falsy). -/
def falsyQ (o : Option ℚ) : Bool := o.getD 0 == 0

/-- Python truthiness of an optional string field (`None` and `""` falsy). -/
def falsyStr (o : Option String) : Bool := o.getD "" == ""

/-- `x if x is not None else cur` — the `if field in data: setattr(...)`
update step for a nullable column. -/
def updOpt {α : Type} (cur : Option α) (inp : Option α) : Option α :=
  match inp with
  | some v => some v
  | none => cur

/-- `db.session.query(func.sum(LaborEntry.total_cost)).filter_by(job_card_id=jobId).scalar() or 0`. -/
def sumLaborCost (entries : List LaborEntry) (jobId : Nat) : ℚ :=
  ((entries.filter (fun e => e.jobCardId == jobId)).map (fun e => e.totalCost)).sum

/-- `db.session.query(func.sum(PartsUsed.total_cost)).filter_by(job_card_id=jobId).scalar() or 0`. -/
def sumPartsCost (used : List PartsUsed) (jobId : Nat) : ℚ :=
  ((used.filter (fun e => e.jobCardId == jobId)).map (fun e => e.totalCost)).sum

/-- Replace the job card with the given id (the ORM mutates the fetched
row in place; primary keys are unique). -/
def putJobCard (l : List JobCard) (i : Nat) (j' : JobCard) : List JobCard :=
  l.map (fun j => if j.id == i then j' else j)

/-- Replace the part with the given id. -/
def putPart (l : List Part) (i : Nat) (p' : Part) : List Part :=
  l.map (fun p => if p.id == i then p' else p)

/-- Request body of `POST /api/job-cards/<job_id>/labor`. -/
structure LaborInput where
  technicianId : Option Nat := none
  hoursWorked : Option ℚ := none
  hourlyRate : Option ℚ := none
  workDate : Option Int := none
  notes : Option String := none

/-- `routes/job_cards.py: add_labor_entry` (`POST /<job_id>/labor`).
The JWT identity is fetched but never used by this handler, so it is not a
parameter; `now` stands for `datetime.utcnow()`.

Note the aggregate: the handler does `db.session.add(labor)` and then sums
`LaborEntry.total_cost` over the job — the query autoflushes the pending
row, so the sum already includes `labor`, and `total_labor += labor.total_cost`
then counts the new entry a second time. -/
def add_labor_entry (s : State) (jobId : Nat) (now : Int) (d : LaborInput) :
    Response × State :=
  match findJobCard s jobId with
  | none => ({ status := 404, error := some "Job card not found" }, s)
  | some job =>
    if falsyNat d.technicianId || falsyQ d.hoursWorked then
      ({ status := 400, error := some "technician_id and hours_worked are required" }, s)
    else
      let hw := d.hoursWorked.getD 0
      let rate := d.hourlyRate.getD 0
      let labor : LaborEntry :=
        { jobCardId := jobId
          technicianId := d.technicianId.getD 0
          workDate := d.workDate.getD now
          hoursWorked := hw
          hourlyRate := rate
          totalCost := hw * rate
          notes := d.notes }
      let entries := s.laborEntries ++ [labor]
      let totalLabor := sumLaborCost entries jobId + labor.totalCost
      let job' := { job with
        laborCost := some totalLabor
        actualCost := some (totalLabor + job.partsCost.getD 0) }
      ({ status := 201 },
       { s with laborEntries := entries, jobCards := putJobCard s.jobCards jobId job' })

/-- Request body of `POST /api/job-cards/<job_id>/parts`. -/
structure PartsInput where
  partId : Option Nat := none
  quantity : Option Int := none
  notes : Option String := none

/-- `routes/job_cards.py: add_parts_used` (`POST /<job_id>/parts`).
The JWT identity is fetched but never used.  As in `add_labor_entry`, the
aggregate over `PartsUsed.total_cost` runs after `db.session.add(parts_used)`
and therefore already includes the new row (autoflush) before
`total_parts += parts_used.total_cost` adds it again. -/
def add_parts_used (s : State) (jobId : Nat) (d : PartsInput) :
    Response × State :=
  match findJobCard s jobId with
  | none => ({ status := 404, error := some "Job card not found" }, s)
  | some job =>
    if falsyNat d.partId || falsyInt d.quantity then
      ({ status := 400, error := some "part_id and quantity are required" }, s)
    else
      match findPart s (d.partId.getD 0) with
      | none => ({ status := 404, error := some "Part not found" }, s)
      | some part =>
        let q := d.quantity.getD 0
        if part.quantityInStock < q then
          ({ status := 400, error := some "Insufficient stock" }, s)
        else
          let pu : PartsUsed :=
            { jobCardId := jobId
              partId := d.partId.getD 0
              quantity := q
              unitCost := part.unitCost
              totalCost := (q : ℚ) * part.unitCost.getD 0
              notes := d.notes }
          let used := s.partsUsed ++ [pu]
          let part' := { part with quantityInStock := part.quantityInStock - q }
          let totalParts := sumPartsCost used jobId + pu.totalCost
          let job' := { job with
            partsCost := some totalParts
            actualCost := some (job.laborCost.getD 0 + totalParts) }
          ({ status := 201 },
           { s with
              partsUsed := used
              parts := putPart s.parts part.id part'
              jobCards := putJobCard s.jobCards jobId job' })

/-- The read representation produced by `Part.to_dict` (inventory fields;
`needs_reorder` is computed from the stored columns, it has no column of
its own). -/
structure PartView where
  id : Nat
  partNumber : String
  name : String
  quantityInStock : Int
  reorderLevel : Int
  unitCost : Option ℚ
  needsReorder : Bool
deriving DecidableEq

/-- `models.Part.to_dict`: `needs_reorder = quantity_in_stock <= reorder_level`. -/
def Part.toDict (p : Part) : PartView :=
  { id := p.id
    partNumber := p.partNumber
    name := p.name
    quantityInStock := p.quantityInStock
    reorderLevel := p.reorderLevel
    unitCost := p.unitCost
    needsReorder := decide (p.quantityInStock ≤ p.reorderLevel) }

/-- Next autoincrement primary key for `parts`. -/
def nextPartId (s : State) : Nat :=
  (s.parts.foldl (fun m p => max m p.id) 0) + 1

/-- Request body of `POST /api/parts`. -/
structure PartInput where
  partNumber : Option String := none
  name : Option String := none
  description : Option String := none
  category : Option String := none
  quantityInStock : Option Int := none
  reorderLevel : Option Int := none
  unitCost : Option ℚ := none
  storageLocation : Option String := none

/-- `routes/parts.py: create_part` (`POST ''`). -/
def create_part (s : State) (user : User) (d : PartInput) : Response × State :=
  if user.role ∉ ["admin", "fleet_manager", "supervisor"] then
    ({ status := 403, error := some "Insufficient permissions" }, s)
  else if falsyStr d.partNumber || falsyStr d.name then
    ({ status := 400, error := some "part_number and name are required" }, s)
  else if (s.parts.find? (fun p => p.partNumber == d.partNumber.getD "")).isSome then
    ({ status := 409, error := some "Part number already exists" }, s)
  else
    let part : Part :=
      { id := nextPartId s
        partNumber := d.partNumber.getD ""
        name := d.name.getD ""
        description := d.description
        category := d.category
        quantityInStock := d.quantityInStock.getD 0
        reorderLevel := d.reorderLevel.getD 5
        unitCost := d.unitCost
        storageLocation := d.storageLocation }
    ({ status := 201 }, { s with parts := s.parts ++ [part] })

/-- Request body of `PUT /api/parts/<part_id>` (the updatable fields). -/
structure PartUpdateInput where
  name : Option String := none
  description : Option String := none
  category : Option String := none
  quantityInStock : Option Int := none
  reorderLevel : Option Int := none
  unitCost : Option ℚ := none
  storageLocation : Option String := none

/-- `routes/parts.py: update_part` (`PUT /<part_id>`): every field present
in the body is written verbatim (`setattr`), with no validation of the new
values — in particular `quantity_in_stock` may be set to any integer. -/
def update_part (s : State) (user : User) (partId : Nat) (d : PartUpdateInput) :
    Response × State :=
  if user.role ∉ ["admin", "fleet_manager", "supervisor"] then
    ({ status := 403, error := some "Insufficient permissions" }, s)
  else
    match findPart s partId with
    | none => ({ status := 404, error := some "Part not found" }, s)
    | some part =>
      let part' : Part :=
        { part with
          name := d.name.getD part.name
          description := updOpt part.description d.description
          category := updOpt part.category d.category
          quantityInStock := d.quantityInStock.getD part.quantityInStock
          reorderLevel := d.reorderLevel.getD part.reorderLevel
          unitCost := updOpt part.unitCost d.unitCost
          storageLocation := updOpt part.storageLocation d.storageLocation }
      ({ status := 200 }, { s with parts := putPart s.parts partId part' })

/-- `routes/parts.py: adjust_stock` (`POST /<part_id>/adjust-stock`).
`adjustment` uses a presence check (`'adjustment' not in data`), not a
truthiness check, and the handler rejects a result that would be negative. -/
def adjust_stock (s : State) (user : User) (partId : Nat)
    (adjustment : Option Int) : Response × State :=
  if user.role ∉ ["admin", "fleet_manager", "supervisor"] then
    ({ status := 403, error := some "Insufficient permissions" }, s)
  else
    match findPart s partId with
    | none => ({ status := 404, error := some "Part not found" }, s)
    | some part =>
      match adjustment with
      | none => ({ status := 400, error := some "adjustment value required" }, s)
      | some adj =>
        let newQuantity := part.quantityInStock + adj
        if newQuantity < 0 then
          ({ status := 400, error := some "Resulting quantity cannot be negative" }, s)
        else
          ({ status := 200 },
           { s with parts := putPart s.parts partId { part with quantityInStock := newQuantity } })

/-- Next autoincrement primary key for `workshops`. -/
def nextWorkshopId (s : State) : Nat :=
  (s.workshops.foldl (fun m w => max m w.id) 0) + 1

/-- Request body of `POST /api/workshops`. -/
structure WorkshopInput where
  name : Option String := none
  location : Option String := none
  capacity : Option Int := none
  specializations : Option String := none
  contactPhone : Option String := none
  contactEmail : Option String := none

/-- `routes/workshops.py: create_workshop` (`POST ''`): admin only; `name`
and `location` required (truthiness check); no audit row is written. -/
def create_workshop (s : State) (user : User) (d : WorkshopInput) :
    Response × State :=
  if user.role ≠ "admin" then
    ({ status := 403, error := some "Insufficient permissions" }, s)
  else if falsyStr d.name then
    ({ status := 400, error := some "name is required" }, s)
  else if falsyStr d.location then
    ({ status := 400, error := some "location is required" }, s)
  else
    let workshop : Workshop :=
      { id := nextWorkshopId s
        name := d.name.getD ""
        location := d.location.getD ""
        capacity := d.capacity.getD 5
        specializations := d.specializations
        contactPhone := d.contactPhone
        contactEmail := d.contactEmail }
    ({ status := 201 }, { s with workshops := s.workshops ++ [workshop] })

/-- Request body of `PUT /api/assets/<asset_id>` (modelled updatable
fields). -/
structure AssetUpdateInput where
  status : Option String := none
  currentMileage : Option Int := none
  currentLocation : Option String := none

/-- `routes/assets.py: update_asset` (`PUT /<asset_id>`): requires role in
`['admin', 'fleet_manager']`; writes the changed fields, and when at least
one field actually changed also stamps `updated_at`, commits and appends an
audit row.  When nothing changed, nothing is committed. -/
def update_asset (s : State) (user : User) (assetId : Nat) (d : AssetUpdateInput) :
    Response × State :=
  if user.role ∉ ["admin", "fleet_manager"] then
    ({ status := 403, error := some "Insufficient permissions" }, s)
  else
    match findAsset s assetId with
    | none => ({ status := 404, error := some "Asset not found" }, s)
    | some asset =>
      let changed :=
        (match d.status with | some v => v != asset.status | none => false) ||
        (match d.currentMileage with | some v => v != asset.currentMileage | none => false) ||
        (match d.currentLocation with | some v => some v != asset.currentLocation | none => false)
      let asset' : Asset :=
        { asset with
          status := d.status.getD asset.status
          currentMileage := d.currentMileage.getD asset.currentMileage
          currentLocation := updOpt asset.currentLocation d.currentLocation }
      if changed then
        ({ status := 200 },
         { s with
            assets := s.assets.map (fun a => if a.id == assetId then asset' else a)
            auditLogs := s.auditLogs ++
              [{ userId := user.id, action := "update", entityType := "asset", entityId := asset.id }] })
      else
        ({ status := 200 }, s)

/-- `JobCard.query.order_by(JobCard.id.desc()).first()`: the stored job
card with the greatest primary key. -/
def lastJobByIdDesc (l : List JobCard) : Option JobCard :=
  l.foldl
    (fun acc j =>
      match acc with
      | none => some j
      | some m => if m.id < j.id then some j else some m)
    none

/-- Python `'{:05d}'.format`-style padding: prepend zeros up to width `w`
(numbers with more digits keep all of them). -/
def zeroPad (w : Nat) (t : String) : String :=
  if t.length < w then String.mk (List.replicate (w - t.length) '0') ++ t else t

/-- `routes/job_cards.py: generate_job_number`: `ym` stands for
`datetime.now().strftime('%Y%m')`. -/
def generate_job_number (ym : String) (s : State) : String :=
  let nextNum : Nat :=
    match lastJobByIdDesc s.jobCards with
    | some lastJob => lastJob.id + 1
    | none => 1
  "JC" ++ ym ++ zeroPad 5 (Nat.repr nextNum)

/-- Modelled from the spec's words (§4.2), for comparison with
`generate_job_number`: next number = (id of the most recently created job
card + 1), or 1 when no job card exists — "most recently created" being the
last row inserted. -/
def specJobNumber (ym : String) (s : State) : String :=
  let nextNum : Nat :=
    match s.jobCards.getLast? with
    | some lastJob => lastJob.id + 1
    | none => 1
  "JC" ++ ym ++ zeroPad 5 (Nat.repr nextNum)

/-- Next autoincrement primary key for `job_cards`. -/
def nextJobCardId (s : State) : Nat :=
  (s.jobCards.foldl (fun m j => max m j.id) 0) + 1

/-- Request body of `POST /api/job-cards`. -/
structure JobCardInput where
  assetId : Option Nat := none
  workshopId : Option Nat := none
  title : Option String := none
  jobType : Option String := none
  description : Option String := none
  priority : Option String := none
  estimatedCost : Option ℚ := none

/-- `routes/job_cards.py: create_job_card` (`POST ''`): requires role in
`['admin', 'fleet_manager', 'supervisor']`; `asset_id`, `workshop_id` and
`title` required (truthiness check); the asset must exist; inserts the job
card (status `pending`, mileage snapshotted from the asset) and appends an
audit row. -/
def create_job_card (s : State) (user : User) (ym : String) (d : JobCardInput) :
    Response × State :=
  if user.role ∉ ["admin", "fleet_manager", "supervisor"] then
    ({ status := 403, error := some "Insufficient permissions" }, s)
  else if falsyNat d.assetId || falsyNat d.workshopId || falsyStr d.title then
    ({ status := 400, error := some "asset_id, workshop_id, and title are required" }, s)
  else
    match findAsset s (d.assetId.getD 0) with
    | none => ({ status := 404, error := some "Asset not found" }, s)
    | some asset =>
      let job : JobCard :=
        { id := nextJobCardId s
          jobNumber := generate_job_number ym s
          assetId := d.assetId.getD 0
          workshopId := d.workshopId.getD 0
          jobType := d.jobType.getD "unplanned"
          title := d.title.getD ""
          status := "pending"
          priority := d.priority.getD "medium"
          estimatedCost := d.estimatedCost
          mileageAtService := some asset.currentMileage
          createdBy := some user.id }
      ({ status := 201 },
       { s with
          jobCards := s.jobCards ++ [job]
          auditLogs := s.auditLogs ++
            [{ userId := user.id, action := "create", entityType := "job_card", entityId := job.id }] })

/-- Request body of `PUT /api/job-cards/<job_id>` (the updatable fields). -/
structure JobCardUpdateInput where
  status : Option String := none
  priority : Option String := none
  diagnosis : Option String := none
  workPerformed : Option String := none
  actualCost : Option ℚ := none
  laborCost : Option ℚ := none
  partsCost : Option ℚ := none
  assignedTo : Option Nat := none

/-- `routes/job_cards.py: update_job_card` (`PUT /<job_id>`): looks up the
calling user but performs NO role check; writes any of the eight updatable
fields whose new value differs from the old; a status of `in_progress` /
`completed` stamps `actual_start` / `actual_end` + `completed_at` once.
Only when at least one updatable field changed is the session committed
(with `updated_at` stamped and an audit row); otherwise the transaction is
rolled back on teardown, discarding any timestamp writes. -/
def update_job_card (s : State) (userId : Nat) (jobId : Nat) (now : Int)
    (d : JobCardUpdateInput) : Response × State :=
  match findJobCard s jobId with
  | none => ({ status := 404, error := some "Job card not found" }, s)
  | some job =>
    let changed :=
      (match d.status with | some v => v != job.status | none => false) ||
      (match d.priority with | some v => v != job.priority | none => false) ||
      (match d.diagnosis with | some v => some v != job.diagnosis | none => false) ||
      (match d.workPerformed with | some v => some v != job.workPerformed | none => false) ||
      (match d.actualCost with | some v => some v != job.actualCost | none => false) ||
      (match d.laborCost with | some v => some v != job.laborCost | none => false) ||
      (match d.partsCost with | some v => some v != job.partsCost | none => false) ||
      (match d.assignedTo with | some v => some v != job.assignedTo | none => false)
    let job1 : JobCard :=
      { job with
        status := d.status.getD job.status
        priority := d.priority.getD job.priority
        diagnosis := updOpt job.diagnosis d.diagnosis
        workPerformed := updOpt job.workPerformed d.workPerformed
        actualCost := updOpt job.actualCost d.actualCost
        laborCost := updOpt job.laborCost d.laborCost
        partsCost := updOpt job.partsCost d.partsCost
        assignedTo := updOpt job.assignedTo d.assignedTo }
    let job2 : JobCard :=
      match d.status with
      | some v =>
        if v == "in_progress" && job1.actualStart == none then
          { job1 with actualStart := some now }
        else if v == "completed" && job1.actualEnd == none then
          { job1 with actualEnd := some now, completedAt := some now }
        else job1
      | none => job1
    if changed then
      ({ status := 200 },
       { s with
          jobCards := putJobCard s.jobCards jobId { job2 with updatedAt := some now }
          auditLogs := s.auditLogs ++
            [{ userId := userId, action := "update", entityType := "job_card", entityId := job.id }] })
    else
      ({ status := 200 }, s)

/-- One element of the `get_due_soon` response (the schedule's read
representation extended with the two computed fields). -/
structure DueSoonEntry where
  scheduleId : Nat
  assetId : Nat
  isActive : Bool
  nextDueDate : Option Int
  daysUntilDue : Int
  isOverdue : Bool
deriving DecidableEq

/-- The per-schedule payload built inside the `get_due_soon` loop:
`days_until_due = next_due_date - today`, `is_overdue = days_until_due < 0`. -/
def dueSoonEntry (today : Int) (m : MaintenanceSchedule) : DueSoonEntry :=
  { scheduleId := m.id
    assetId := m.assetId
    isActive := m.isActive
    nextDueDate := m.nextDueDate
    daysUntilDue := m.nextDueDate.getD 0 - today
    isOverdue := decide (m.nextDueDate.getD 0 - today < 0) }

/-- `routes/maintenance.py: get_due_soon` (`GET /due-soon`): the active
schedules whose `next_due_date` is set and at most `today + days` (a SQL
comparison against NULL excludes rows without a due date), each with the
computed `days_until_due` / `is_overdue` fields.  A pure read: no state is
returned because none is written.  The `order_by(next_due_date)` only
affects presentation order and is not modelled. -/
def get_due_soon (s : State) (today : Int) (days : Int) : List DueSoonEntry :=
  ((s.schedules.filter
      (fun m =>
        m.isActive &&
        match m.nextDueDate with
        | some dd => dd ≤ today + days
        | none => false)).map
    (dueSoonEntry today))

/-- One mutating request, as dispatched by the route table; carries the
authenticated user's row. -/
inductive Request where
  | createWorkshop (user : User) (d : WorkshopInput)
  | updateAsset (user : User) (assetId : Nat) (d : AssetUpdateInput)
  | createPart (user : User) (d : PartInput)
  | updatePart (user : User) (partId : Nat) (d : PartUpdateInput)
  | adjustStock (user : User) (partId : Nat) (adjustment : Option Int)
  | createJobCard (user : User) (ym : String) (d : JobCardInput)
  | updateJobCard (user : User) (jobId : Nat) (now : Int) (d : JobCardUpdateInput)
  | addLaborEntry (user : User) (jobId : Nat) (now : Int) (d : LaborInput)
  | addPartsUsed (user : User) (jobId : Nat) (d : PartsInput)

/-- Dispatch one request to its handler.  `add_labor_entry` and
`add_parts_used` ignore the caller entirely (the source fetches the JWT
identity but never reads it), and `update_job_card` uses only the caller's
id (for the audit row), never the role. -/
def step (s : State) (r : Request) : Response × State :=
  match r with
  | .createWorkshop u d => create_workshop s u d
  | .updateAsset u i d => update_asset s u i d
  | .createPart u d => create_part s u d
  | .updatePart u i d => update_part s u i d
  | .adjustStock u i adj => adjust_stock s u i adj
  | .createJobCard u ym d => create_job_card s u ym d
  | .updateJobCard u i now d => update_job_card s u.id i now d
  | .addLaborEntry _ i now d => add_labor_entry s i now d
  | .addPartsUsed _ i d => add_parts_used s i d

/-- Run a sequence of requests (each failed request leaves the state as it
was). -/
def run (s : State) (rs : List Request) : State :=
  rs.foldl (fun s r => (step s r).2) s

/-! Concrete fixtures used by the closed theorems and witnesses. -/

/-- A seeded administrator (`init_db` creates one). -/
def adminUser : User := { id := 1, role := "admin" }

/-- A seeded technician. -/
def techUser : User := { id := 2, role := "technician" }

/-- A fleet asset. -/
def demoAsset : Asset := { id := 1, registration := "AB12CDE" }

/-- A workshop. -/
def demoWorkshop : Workshop := { id := 1, name := "Main", location := "Depot" }

/-- A freshly created job card: no labor/parts rows, all cost fields unset. -/
def demoJob : JobCard :=
  { id := 10, jobNumber := "JC20251000010", assetId := 1, workshopId := 1, title := "Service" }

/-- A stocked part: 5 in stock, reorder level 5, unit cost 10. -/
def demoPart : Part :=
  { id := 1, partNumber := "P-100", name := "Oil filter"
    quantityInStock := 5, reorderLevel := 5, unitCost := some 10 }

/-- Store holding the fixtures above. -/
def demoState : State :=
  { users := [adminUser, techUser]
    workshops := [demoWorkshop]
    assets := [demoAsset]
    parts := [demoPart]
    jobCards := [demoJob] }

/-- Claim C1: the spec says `add_labor_entry` recomputes `labor_cost` as the
sum of the job's `LaborEntry.total_cost` rows, so that adding one entry with
`hours_worked = 2`, `hourly_rate = 50` to a job with no rows yields
`labor_cost = actual_cost = 100`.  The code does not: the aggregate query
runs after `db.session.add(labor)`, autoflush makes it include the new row,
and `total_labor += labor.total_cost` counts the entry a second time — the
call succeeds (201) but stores `labor_cost = actual_cost = 200`, twice the
sum (100) of the stored rows. -/
theorem add_labor_entry_double_counts_new_entry :
    (add_labor_entry demoState 10 0
        { technicianId := some 2, hoursWorked := some 2, hourlyRate := some 50 }).1.status = 201 ∧
    ((add_labor_entry demoState 10 0
        { technicianId := some 2, hoursWorked := some 2, hourlyRate := some 50 }).2.jobCards.map
      (fun j => j.laborCost)) = [some 200] ∧
    ((add_labor_entry demoState 10 0
        { technicianId := some 2, hoursWorked := some 2, hourlyRate := some 50 }).2.jobCards.map
      (fun j => j.actualCost)) = [some 200] ∧
    sumLaborCost
      (add_labor_entry demoState 10 0
        { technicianId := some 2, hoursWorked := some 2, hourlyRate := some 50 }).2.laborEntries
      10 = 100 := by
  refine ⟨?_, ?_, ?_, ?_⟩ <;>
    norm_num [add_labor_entry, demoState, demoJob, findJobCard, falsyNat, falsyQ,
      sumLaborCost, putJobCard]

/-- Replacing the row with key `i` by a row that still has key `i` makes the
subsequent lookup return the replacement (provided the lookup succeeded
before). -/
theorem find?_putJobCard (l : List JobCard) (i : Nat) (j' : JobCard)
    (hid : j'.id = i) (hl : (l.find? (fun x => x.id == i)).isSome) :
    (putJobCard l i j').find? (fun x => x.id == i) = some j' := by
  induction l with
  | nil => simp [List.find?] at hl
  | cons a t ih =>
    by_cases h : a.id = i
    · have hb : (a.id == i) = true := beq_iff_eq.mpr h
      have hb' : (j'.id == i) = true := beq_iff_eq.mpr hid
      simp [putJobCard, List.find?, hb, hb']
    · have hb : (a.id == i) = false := by
        simp [h]
      simp only [putJobCard, List.map_cons, hb, Bool.false_eq_true, if_false,
        List.find?_cons, cond_false] at *
      exact ih hl

/-- Claim C2: every state produced by a successful `add_labor_entry` or
`add_parts_used` call satisfies `actual_cost = labor_cost + parts_cost` for
the mutated job card (a missing component counting as 0), and leaves every
other job card as it was. -/
theorem actual_cost_is_labor_plus_parts :
    (∀ (s : State) (jobId : Nat) (now : Int) (d : LaborInput) (r : Response) (s' : State),
      add_labor_entry s jobId now d = (r, s') → r.status = 201 →
      (∃ j', findJobCard s' jobId = some j' ∧
        j'.actualCost = some (j'.laborCost.getD 0 + j'.partsCost.getD 0)) ∧
      ∀ j ∈ s'.jobCards, j.id ≠ jobId → j ∈ s.jobCards) ∧
    (∀ (s : State) (jobId : Nat) (d : PartsInput) (r : Response) (s' : State),
      add_parts_used s jobId d = (r, s') → r.status = 201 →
      (∃ j', findJobCard s' jobId = some j' ∧
        j'.actualCost = some (j'.laborCost.getD 0 + j'.partsCost.getD 0)) ∧
      ∀ j ∈ s'.jobCards, j.id ≠ jobId → j ∈ s.jobCards) := by
  constructor
  · intro s jobId now d r s' h hst
    simp only [add_labor_entry] at h
    split at h
    · cases h; simp at hst
    next job heq =>
      split at h
      · cases h; simp at hst
      · injection h with h1 h2
        subst h2
        have hjid : job.id = jobId := by
          have := List.find?_some heq
          exact beq_iff_eq.mp this
        constructor
        · exact ⟨_, find?_putJobCard _ _ _ hjid (by unfold findJobCard at heq; simp [heq]), by simp⟩
        · intro j hj hne
          simp only [putJobCard, List.mem_map] at hj
          obtain ⟨a, ha, rfl⟩ := hj
          by_cases hcase : a.id = jobId
          · exact absurd (by simp [hcase, hjid]) hne
          · simpa [hcase] using ha
  · intro s jobId d r s' h hst
    simp only [add_parts_used] at h
    split at h
    · cases h; simp at hst
    next job heq =>
      split at h
      · cases h; simp at hst
      · split at h
        · cases h; simp at hst
        next part hpeq =>
          split at h
          · cases h; simp at hst
          · injection h with h1 h2
            subst h2
            have hjid : job.id = jobId := by
              have := List.find?_some heq
              exact beq_iff_eq.mp this
            constructor
            · exact ⟨_, find?_putJobCard _ _ _ hjid (by unfold findJobCard at heq; simp [heq]), by simp⟩
            · intro j hj hne
              simp only [putJobCard, List.mem_map] at hj
              obtain ⟨a, ha, rfl⟩ := hj
              by_cases hcase : a.id = jobId
              · exact absurd (by simp [hcase, hjid]) hne
              · simpa [hcase] using ha

/-- Witness for `actual_cost_is_labor_plus_parts` at the concrete scenario
state. -/
theorem actual_cost_is_labor_plus_parts_witness :
    (∃ j', findJobCard
        (add_labor_entry demoState 10 0
          { technicianId := some 2, hoursWorked := some 2, hourlyRate := some 50 }).2 10
        = some j' ∧
      j'.actualCost = some (j'.laborCost.getD 0 + j'.partsCost.getD 0)) ∧
    ∀ j ∈ (add_labor_entry demoState 10 0
          { technicianId := some 2, hoursWorked := some 2, hourlyRate := some 50 }).2.jobCards,
      j.id ≠ 10 → j ∈ demoState.jobCards :=
  actual_cost_is_labor_plus_parts.1 demoState 10 0
    { technicianId := some 2, hoursWorked := some 2, hourlyRate := some 50 }
    _ _ rfl (by decide)

/-- A part with nothing in stock. -/
def emptyPart : Part :=
  { id := 1, partNumber := "P-100", name := "Oil filter"
    quantityInStock := 0, reorderLevel := 5, unitCost := some 10 }

/-- Store with a zero-stock part and a job card. -/
def zeroStockState : State :=
  { users := [adminUser], parts := [emptyPart], jobCards := [demoJob] }

/-- Claim C3 counterexample: a call whose quantity equals the part's current
stock is not always allowed — with stock 0, the call with `quantity = 0` is
rejected by the falsy required-field check (400 "part_id and quantity are
required"), because `not data.get('quantity')` treats 0 as missing. -/
theorem quantity_equal_to_zero_stock_rejected :
    add_parts_used zeroStockState 10 { partId := some 1, quantity := some 0 } =
      ({ status := 400, error := some "part_id and quantity are required" }, zeroStockState) := by
  decide

/-- Claim C3 (amended): for a call on an existing job and part (`part_id`
nonzero, stock non-negative), a quantity strictly greater than the stock
returns "Insufficient stock" with the store untouched, and a quantity equal
to a positive stock is allowed (quantity 0 is caught by the required-field
check first). -/
theorem insufficient_stock_guard :
    ∀ (s : State) (jobId pid : Nat) (q : Int) (notes : Option String) (p : Part),
      (findJobCard s jobId).isSome → findPart s pid = some p → pid ≠ 0 →
      0 ≤ p.quantityInStock →
      ((p.quantityInStock < q →
          add_parts_used s jobId { partId := some pid, quantity := some q, notes := notes } =
            ({ status := 400, error := some "Insufficient stock" }, s)) ∧
       (1 ≤ q → q = p.quantityInStock →
          (add_parts_used s jobId
            { partId := some pid, quantity := some q, notes := notes }).1.status = 201)) := by
  intro s jobId pid q notes p hjob hpart hpid hstock
  obtain ⟨job, hjob⟩ := Option.isSome_iff_exists.mp hjob
  constructor
  · intro hlt
    have hq : q ≠ 0 := by omega
    simp [add_parts_used, hjob, hpart, falsyNat, falsyInt, hpid, hq, hlt]
  · intro hq1 hqe
    have hq : q ≠ 0 := by omega
    have hnlt : ¬ p.quantityInStock < q := by omega
    simp [add_parts_used, hjob, hpart, falsyNat, falsyInt, hpid, hq, hnlt]

/-- Witness for `insufficient_stock_guard` on the demo store (stock 5):
quantity 7 is refused without mutation, quantity 5 is accepted. -/
theorem insufficient_stock_guard_witness :
    (add_parts_used demoState 10 { partId := some 1, quantity := some 7, notes := none } =
      ({ status := 400, error := some "Insufficient stock" }, demoState)) ∧
    (add_parts_used demoState 10
      { partId := some 1, quantity := some 5, notes := none }).1.status = 201 :=
  ⟨(insufficient_stock_guard demoState 10 1 7 none demoPart (by decide) (by decide)
      (by decide) (by decide)).1 (by decide),
   (insufficient_stock_guard demoState 10 1 5 none demoPart (by decide) (by decide)
      (by decide) (by decide)).2 (by decide) (by decide)⟩

/-- The trace refuting claim C4: an admin creates a part with 5 in stock,
then `PUT /api/parts/1` with body `quantity_in_stock = -3`. -/
def negativeStockTrace : List Request :=
  [ Request.createPart adminUser
      { partNumber := some "P-1", name := some "Filter"
        quantityInStock := some 5, unitCost := some 10 },
    Request.updatePart adminUser 1 { quantityInStock := some (-3) } ]

/-- Claim C4 counterexample: `update_part` writes `quantity_in_stock`
verbatim with no validation, so stock is adjusted outside `adjust_stock` /
parts consumption and becomes negative in a reachable state. -/
theorem update_part_drives_stock_negative :
    ((run { users := [adminUser] } negativeStockTrace).parts.map
      (fun p => p.quantityInStock)) = [-3] := by
  decide

/-- Requests that do not smuggle a negative `quantity_in_stock` value
through `create_part` / `update_part` (those two handlers write the value
verbatim; all other requests are unrestricted). -/
def stockSafe : Request → Prop
  | .createPart _ d => 0 ≤ d.quantityInStock.getD 0
  | .updatePart _ _ d => 0 ≤ d.quantityInStock.getD 0
  | _ => True

theorem parts_create_workshop (s : State) (u : User) (d : WorkshopInput) :
    ((create_workshop s u d).2).parts = s.parts := by
  unfold create_workshop
  split
  · rfl
  · split
    · rfl
    · split
      · rfl
      · rfl

theorem parts_update_asset (s : State) (u : User) (i : Nat) (d : AssetUpdateInput) :
    ((update_asset s u i d).2).parts = s.parts := by
  simp only [update_asset]
  repeat first | rfl | split

theorem parts_create_job_card (s : State) (u : User) (ym : String) (d : JobCardInput) :
    ((create_job_card s u ym d).2).parts = s.parts := by
  unfold create_job_card
  split
  · rfl
  · split
    · rfl
    · split
      · rfl
      · rfl

theorem parts_update_job_card (s : State) (uid : Nat) (i : Nat) (now : Int)
    (d : JobCardUpdateInput) : ((update_job_card s uid i now d).2).parts = s.parts := by
  simp only [update_job_card]
  repeat first | rfl | split

theorem parts_add_labor_entry (s : State) (i : Nat) (now : Int) (d : LaborInput) :
    ((add_labor_entry s i now d).2).parts = s.parts := by
  unfold add_labor_entry
  split
  · rfl
  · split
    · rfl
    · rfl

/-- Membership in a `putPart` update: each row is either the replacement or
an original row. -/
theorem mem_putPart (l : List Part) (i : Nat) (p' : Part) (p : Part)
    (hp : p ∈ putPart l i p') : p = p' ∨ p ∈ l := by
  simp only [putPart, List.mem_map] at hp
  obtain ⟨a, ha, rfl⟩ := hp
  by_cases h : a.id = i
  · simp [h]
  · simp [h]
    right
    exact ha

/-- Each single request keeps every stock level non-negative (given it is
`stockSafe`). -/
theorem step_stock_nonneg (s : State) (r : Request) (hr : stockSafe r)
    (hs : ∀ p ∈ s.parts, 0 ≤ p.quantityInStock) :
    ∀ p ∈ (step s r).2.parts, 0 ≤ p.quantityInStock := by
  cases r with
  | createWorkshop u d =>
    intro p hp
    rw [step, parts_create_workshop] at hp
    exact hs p hp
  | updateAsset u i d =>
    intro p hp
    rw [step, parts_update_asset] at hp
    exact hs p hp
  | createJobCard u ym d =>
    intro p hp
    rw [step, parts_create_job_card] at hp
    exact hs p hp
  | updateJobCard u i now d =>
    intro p hp
    rw [step, parts_update_job_card] at hp
    exact hs p hp
  | addLaborEntry u i now d =>
    intro p hp
    rw [step, parts_add_labor_entry] at hp
    exact hs p hp
  | createPart u d =>
    intro p hp
    rw [step] at hp
    unfold create_part at hp
    split at hp
    · exact hs p hp
    · split at hp
      · exact hs p hp
      · split at hp
        · exact hs p hp
        · simp only [List.mem_append, List.mem_singleton] at hp
          rcases hp with hp | rfl
          · exact hs p hp
          · exact hr
  | updatePart u i d =>
    intro p hp
    rw [step] at hp
    unfold update_part at hp
    split at hp
    · exact hs p hp
    · split at hp
      · exact hs p hp
      next part hfind =>
        rcases mem_putPart _ _ _ _ hp with rfl | hmem
        · have hpart : part ∈ s.parts := List.mem_of_find?_eq_some hfind
          cases hq : d.quantityInStock with
          | none => simpa [hq] using hs part hpart
          | some v =>
            have := hr
            simp only [stockSafe, hq, Option.getD_some] at this
            simpa [hq] using this
        · exact hs p hmem
  | adjustStock u i adj =>
    intro p hp
    rw [step] at hp
    simp only [adjust_stock] at hp
    split at hp
    · exact hs p hp
    · split at hp
      · exact hs p hp
      · split at hp
        · exact hs p hp
        · split at hp
          · exact hs p hp
          next hnneg =>
            rcases mem_putPart _ _ _ _ hp with rfl | hmem
            · simpa using le_of_not_lt hnneg
            · exact hs p hmem
  | addPartsUsed u i d =>
    intro p hp
    rw [step] at hp
    simp only [add_parts_used] at hp
    split at hp
    · exact hs p hp
    · split at hp
      · exact hs p hp
      · split at hp
        · exact hs p hp
        next part hfind =>
          split at hp
          · exact hs p hp
          next hnlt =>
            rcases mem_putPart _ _ _ _ hp with rfl | hmem
            · simp only []
              omega
            · exact hs p hmem

/-- Claim C4 (amended): `adjust_stock` rejects any adjustment whose result
would be negative (leaving the store untouched), `add_parts_used` only ever
decrements stock by the consumed quantity and never below zero, and stock
stays non-negative along any request trace in which `create_part` /
`update_part` — which write `quantity_in_stock` verbatim with no
validation — are not given a negative value. -/
theorem stock_nonneg_invariant :
    (∀ (s : State) (rs : List Request),
      (∀ r ∈ rs, stockSafe r) → (∀ p ∈ s.parts, 0 ≤ p.quantityInStock) →
      ∀ p ∈ (run s rs).parts, 0 ≤ p.quantityInStock) ∧
    (∀ (s : State) (u : User) (pid : Nat) (adj : Int) (p : Part),
      u.role ∈ ["admin", "fleet_manager", "supervisor"] → findPart s pid = some p →
      p.quantityInStock + adj < 0 →
      adjust_stock s u pid (some adj) =
        ({ status := 400, error := some "Resulting quantity cannot be negative" }, s)) := by
  constructor
  · intro s rs hsafe hs
    induction rs generalizing s with
    | nil => exact hs
    | cons r rs ih =>
      have hrun : run s (r :: rs) = run (step s r).2 rs := rfl
      rw [hrun]
      exact ih _ (fun x hx => hsafe x (List.mem_cons_of_mem _ hx))
        (step_stock_nonneg s r (hsafe r (List.mem_cons_self r rs)) hs)
  · intro s u pid adj p hrole hfind hneg
    have hnotnot : ¬ u.role ∉ ["admin", "fleet_manager", "supervisor"] := by
      simp [hrole]
    unfold adjust_stock
    rw [if_neg hnotnot, hfind]
    simp only [if_pos hneg]

/-- Witness for `stock_nonneg_invariant`: the safe two-request trace keeps
the demo store non-negative, and an adjustment of −9 on stock 5 is refused. -/
theorem stock_nonneg_invariant_witness :
    (∀ p ∈ (run demoState
        [Request.adjustStock adminUser 1 (some (-5)),
         Request.addPartsUsed techUser 10 { partId := some 1, quantity := some 2 }]).parts,
      0 ≤ p.quantityInStock) ∧
    adjust_stock demoState adminUser 1 (some (-9)) =
      ({ status := 400, error := some "Resulting quantity cannot be negative" }, demoState) :=
  ⟨stock_nonneg_invariant.1 demoState
      [Request.adjustStock adminUser 1 (some (-5)),
       Request.addPartsUsed techUser 10 { partId := some 1, quantity := some 2 }]
      (by intro r hr; fin_cases hr <;> trivial)
      (by decide),
   stock_nonneg_invariant.2 demoState adminUser 1 (-9) demoPart (by decide) (by decide)
      (by decide)⟩

/-- Claim C5 counterexample: `update_job_card` performs no role check — a
technician's update request succeeds (200), changes the stored priority and
leaves the store different, instead of the claimed permission-denied
outcome with the store unchanged. -/
theorem update_job_card_not_role_gated :
    (step demoState (Request.updateJobCard techUser 10 0 { priority := some "high" })).1.status
        = 200 ∧
    ((step demoState (Request.updateJobCard techUser 10 0 { priority := some "high" })).2.jobCards.map
      (fun j => j.priority)) = ["high"] ∧
    (step demoState (Request.updateJobCard techUser 10 0 { priority := some "high" })).2
        ≠ demoState := by
  refine ⟨by decide, by decide, by decide⟩

/-- Claim C5 (amended): workshop creation is admin-only, asset update
requires `{admin, fleet_manager}`, and part creation/update/stock
adjustment and job-card creation require `{admin, fleet_manager,
supervisor}` — each failed check returns 403 with the store untouched.  But
job-card update, `add_labor_entry` and `add_parts_used` consult the
caller's role nowhere: their outcome is identical for any two callers (same
id for the update's audit row), whatever their roles. -/
theorem role_gates :
    (∀ (s : State) (u : User) (d : WorkshopInput), u.role ≠ "admin" →
      create_workshop s u d = ({ status := 403, error := some "Insufficient permissions" }, s)) ∧
    (∀ (s : State) (u : User) (i : Nat) (d : AssetUpdateInput),
      u.role ∉ ["admin", "fleet_manager"] →
      update_asset s u i d = ({ status := 403, error := some "Insufficient permissions" }, s)) ∧
    (∀ (s : State) (u : User) (d : PartInput),
      u.role ∉ ["admin", "fleet_manager", "supervisor"] →
      create_part s u d = ({ status := 403, error := some "Insufficient permissions" }, s)) ∧
    (∀ (s : State) (u : User) (i : Nat) (d : PartUpdateInput),
      u.role ∉ ["admin", "fleet_manager", "supervisor"] →
      update_part s u i d = ({ status := 403, error := some "Insufficient permissions" }, s)) ∧
    (∀ (s : State) (u : User) (i : Nat) (adj : Option Int),
      u.role ∉ ["admin", "fleet_manager", "supervisor"] →
      adjust_stock s u i adj = ({ status := 403, error := some "Insufficient permissions" }, s)) ∧
    (∀ (s : State) (u : User) (ym : String) (d : JobCardInput),
      u.role ∉ ["admin", "fleet_manager", "supervisor"] →
      create_job_card s u ym d = ({ status := 403, error := some "Insufficient permissions" }, s)) ∧
    (∀ (s : State) (u1 u2 : User) (i : Nat) (now : Int) (d : JobCardUpdateInput),
      u1.id = u2.id →
      step s (Request.updateJobCard u1 i now d) = step s (Request.updateJobCard u2 i now d)) ∧
    (∀ (s : State) (u1 u2 : User) (i : Nat) (now : Int) (d : LaborInput),
      step s (Request.addLaborEntry u1 i now d) = step s (Request.addLaborEntry u2 i now d)) ∧
    (∀ (s : State) (u1 u2 : User) (i : Nat) (d : PartsInput),
      step s (Request.addPartsUsed u1 i d) = step s (Request.addPartsUsed u2 i d)) := by
  refine ⟨?_, ?_, ?_, ?_, ?_, ?_, ?_, ?_, ?_⟩
  · intro s u d h
    unfold create_workshop
    rw [if_pos h]
  · intro s u i d h
    unfold update_asset
    rw [if_pos h]
  · intro s u d h
    unfold create_part
    rw [if_pos h]
  · intro s u i d h
    unfold update_part
    rw [if_pos h]
  · intro s u i adj h
    unfold adjust_stock
    rw [if_pos h]
  · intro s u ym d h
    unfold create_job_card
    rw [if_pos h]
  · intro s u1 u2 i now d h
    simp only [step, h]
  · intro s u1 u2 i now d
    rfl
  · intro s u1 u2 i d
    rfl

/-- Witness for `role_gates`: a technician is refused on the gated handlers
(store untouched), while a viewer's and an admin's labor submissions give
the same result. -/
theorem role_gates_witness :
    create_workshop demoState techUser { name := some "North", location := some "Yard" } =
      ({ status := 403, error := some "Insufficient permissions" }, demoState) ∧
    update_asset demoState techUser 1 { status := some "retired" } =
      ({ status := 403, error := some "Insufficient permissions" }, demoState) ∧
    adjust_stock demoState techUser 1 (some 1) =
      ({ status := 403, error := some "Insufficient permissions" }, demoState) ∧
    step demoState (Request.updateJobCard techUser 10 0 { priority := some "low" }) =
      step demoState (Request.updateJobCard { id := 2, role := "viewer" } 10 0
        { priority := some "low" }) :=
  ⟨role_gates.1 demoState techUser _ (by decide),
   role_gates.2.1 demoState techUser 1 _ (by decide),
   role_gates.2.2.2.2.1 demoState techUser 1 (some 1) (by decide),
   role_gates.2.2.2.2.2.2.1 demoState techUser { id := 2, role := "viewer" } 10 0
     { priority := some "low" } rfl⟩

/-- Claim C6: `needs_reorder` is computed in the part's read representation
(`to_dict`) as `quantity_in_stock ≤ reorder_level` — true exactly at or
below the threshold — and a stock adjustment stores nothing but the new
quantity; concretely, stock 5 with reorder level 5 reads `needs_reorder =
true`, and after `adjust-stock +1` it reads `false`. -/
theorem needs_reorder_computed :
    (∀ p : Part, ((Part.toDict p).needsReorder = true ↔
      p.quantityInStock ≤ p.reorderLevel)) ∧
    (∀ (s : State) (u : User) (pid : Nat) (adj : Int) (p : Part),
      u.role ∈ ["admin", "fleet_manager", "supervisor"] → findPart s pid = some p →
      0 ≤ p.quantityInStock + adj →
      adjust_stock s u pid (some adj) =
        ({ status := 200 },
         { s with
            parts := putPart s.parts pid { p with quantityInStock := p.quantityInStock + adj } })) ∧
    (Part.toDict demoPart).needsReorder = true ∧
    ((adjust_stock demoState adminUser 1 (some 1)).2.parts.map
      (fun p => (Part.toDict p).needsReorder)) = [false] := by
  refine ⟨?_, ?_, by decide, by decide⟩
  · intro p
    simp [Part.toDict]
  · intro s u pid adj p hrole hfind hnneg
    have hnotnot : ¬ u.role ∉ ["admin", "fleet_manager", "supervisor"] := by
      simp [hrole]
    have hnlt : ¬ p.quantityInStock + adj < 0 := by omega
    unfold adjust_stock
    rw [if_neg hnotnot, hfind]
    simp only [if_neg hnlt]

/-- Witness for `needs_reorder_computed`: the general `adjust_stock`
equation instantiated on the demo store. -/
theorem needs_reorder_computed_witness :
    adjust_stock demoState adminUser 1 (some 1) =
      ({ status := 200 },
       { demoState with
          parts := putPart demoState.parts 1 { demoPart with quantityInStock := demoPart.quantityInStock + 1 } }) :=
  needs_reorder_computed.2.1 demoState adminUser 1 1 demoPart (by decide) (by decide)
    (by decide)

/-- Claim C7: a successful `add_parts_used` appends exactly one `PartsUsed`
row whose `unit_cost` is the part's unit cost at call time and whose
`total_cost` is quantity × that unit cost; and `update_part` (the only way
to change `Part.unit_cost`) never touches the `parts_used` table, so
previously created rows keep their snapshot. -/
theorem unit_cost_snapshot :
    (∀ (s : State) (jobId : Nat) (d : PartsInput) (r : Response) (s' : State) (p : Part),
      findPart s (d.partId.getD 0) = some p →
      add_parts_used s jobId d = (r, s') → r.status = 201 →
      s'.partsUsed = s.partsUsed ++
        [{ jobCardId := jobId, partId := d.partId.getD 0, quantity := d.quantity.getD 0,
           unitCost := p.unitCost,
           totalCost := ((d.quantity.getD 0 : Int) : ℚ) * p.unitCost.getD 0,
           notes := d.notes }]) ∧
    (∀ (s : State) (u : User) (pid : Nat) (d : PartUpdateInput),
      ((update_part s u pid d).2).partsUsed = s.partsUsed) := by
  constructor
  · intro s jobId d r s' p hp h hst
    simp only [add_parts_used] at h
    split at h
    · cases h; simp at hst
    · split at h
      · cases h; simp at hst
      · split at h
        · cases h; simp at hst
        next part hpeq =>
          split at h
          · cases h; simp at hst
          · rw [hp] at hpeq
            injection hpeq with hpe
            subst hpe
            injection h with h1 h2
            subst h2
            rfl
  · intro s u pid d
    simp only [update_part]
    repeat first | rfl | split

/-- Witness for `unit_cost_snapshot` on the demo store: consuming 2 of part
1 snapshots unit cost 10, and a later price change leaves `parts_used`
untouched. -/
theorem unit_cost_snapshot_witness :
    (add_parts_used demoState 10 { partId := some 1, quantity := some 2 }).2.partsUsed =
      demoState.partsUsed ++
        [{ jobCardId := 10, partId := 1, quantity := 2, unitCost := demoPart.unitCost,
           totalCost := ((2 : Int) : ℚ) * demoPart.unitCost.getD 0, notes := none }] ∧
    (update_part demoState adminUser 1 { unitCost := some 99 }).2.partsUsed =
      demoState.partsUsed :=
  ⟨unit_cost_snapshot.1 demoState 10 { partId := some 1, quantity := some 2 } _ _ demoPart
      (by decide) rfl (by decide),
   unit_cost_snapshot.2 demoState adminUser 1 { unitCost := some 99 }⟩

/-- An active schedule one day overdue (with `today = 0`). -/
def dueSchedule : MaintenanceSchedule := { id := 1, assetId := 1, nextDueDate := some (-1) }

/-- Store holding only `dueSchedule`. -/
def dueState : State := { schedules := [dueSchedule] }

/-- Claim C8: `get_due_soon` returns exactly the active schedules whose due
date is set and at most `today + days`, each reported with
`days_until_due = next_due_date − today` and `is_overdue ↔ days_until_due <
0`; it is a pure read (its type returns no state).  Concretely, a schedule
due yesterday is returned with `days_until_due = −1`, `is_overdue = true`
for `days = 30`. -/
theorem get_due_soon_spec :
    (∀ (s : State) (today days : Int) (m : MaintenanceSchedule),
      m ∈ s.schedules → m.isActive = true →
      ∀ dd, m.nextDueDate = some dd → dd ≤ today + days →
      dueSoonEntry today m ∈ get_due_soon s today days) ∧
    (∀ (s : State) (today days : Int) (x : DueSoonEntry),
      x ∈ get_due_soon s today days →
      ∃ m ∈ s.schedules, x = dueSoonEntry today m ∧ m.isActive = true ∧
        ∃ dd, m.nextDueDate = some dd ∧ dd ≤ today + days) ∧
    (∀ (today : Int) (m : MaintenanceSchedule) (dd : Int), m.nextDueDate = some dd →
      (dueSoonEntry today m).daysUntilDue = dd - today ∧
      ((dueSoonEntry today m).isOverdue = true ↔ dd - today < 0)) ∧
    get_due_soon dueState 0 30 =
      [{ scheduleId := 1, assetId := 1, isActive := true, nextDueDate := some (-1),
         daysUntilDue := -1, isOverdue := true }] := by
  refine ⟨?_, ?_, ?_, by decide⟩
  · intro s today days m hm hact dd hdd hle
    simp only [get_due_soon, List.mem_map]
    exact ⟨m, List.mem_filter.mpr ⟨hm, by simp [hact, hdd, hle]⟩, rfl⟩
  · intro s today days x hx
    simp only [get_due_soon, List.mem_map] at hx
    obtain ⟨m, hm, rfl⟩ := hx
    have hf := List.mem_filter.mp hm
    have hcond := hf.2
    rw [Bool.and_eq_true] at hcond
    refine ⟨m, hf.1, rfl, hcond.1, ?_⟩
    cases hdd : m.nextDueDate with
    | none => rw [hdd] at hcond; simp at hcond
    | some dd =>
      rw [hdd] at hcond
      exact ⟨dd, rfl, by simpa using hcond.2⟩
  · intro today m dd hdd
    simp [dueSoonEntry, hdd]

/-- Witness for `get_due_soon_spec`: the overdue schedule is indeed
returned for `today = 0`, `days = 30`, with the computed fields. -/
theorem get_due_soon_spec_witness :
    dueSoonEntry 0 dueSchedule ∈ get_due_soon dueState 0 30 ∧
    (dueSoonEntry 0 dueSchedule).daysUntilDue = -1 - 0 ∧
    ((dueSoonEntry 0 dueSchedule).isOverdue = true ↔ (-1 : Int) - 0 < 0) :=
  ⟨get_due_soon_spec.1 dueState 0 30 dueSchedule (by decide) (by decide) (-1) rfl
      (by decide),
   get_due_soon_spec.2.2.1 0 dueSchedule (-1) rfl⟩

/-- For a list of job cards with strictly increasing primary keys, the
row with the greatest id is the last row inserted. -/
theorem lastJobByIdDesc_eq_getLast (l : List JobCard)
    (h : l.Chain' (fun a b => a.id < b.id)) : lastJobByIdDesc l = l.getLast? := by
  cases l with
  | nil => rfl
  | cons a t =>
    unfold lastJobByIdDesc
    rw [List.foldl_cons]
    induction t generalizing a with
    | nil => rfl
    | cons b t' ih =>
      have hc := List.chain'_cons.mp h
      rw [List.foldl_cons]
      have hstep :
          (match some a with
            | none => some b
            | some m => if m.id < b.id then some b else some m) = some b := by
        simp [hc.1]
      rw [hstep, ih b hc.2, List.getLast?_cons_cons]

/-- Claim C9: for stores whose job-card table has (autoincrement) strictly
increasing primary keys, `generate_job_number` produces exactly the
spec-side function: `JC` + year-month + the zero-padded (width 5) decimal
of (id of the most recently created job card + 1), or of 1 when the table
is empty. -/
theorem generate_job_number_matches_spec :
    ∀ (ym : String) (s : State), s.jobCards.Chain' (fun a b => a.id < b.id) →
      generate_job_number ym s = specJobNumber ym s := by
  intro ym s h
  unfold generate_job_number specJobNumber
  rw [lastJobByIdDesc_eq_getLast _ h]

/-- Witness for `generate_job_number_matches_spec` on the demo store (last
job id 10) and on the empty store. -/
theorem generate_job_number_matches_spec_witness :
    generate_job_number "202510" demoState = specJobNumber "202510" demoState ∧
    generate_job_number "202510" demoState = "JC20251000011" ∧
    generate_job_number "202510" { } = "JC20251000001" :=
  ⟨generate_job_number_matches_spec "202510" demoState
      (by simp [demoState, List.chain'_singleton]),
   by decide, by decide⟩

/-- Claim C10: a present-but-zero `hours_worked` (labor) or `quantity`
(parts) is falsy in Python, so the handlers' `not data.get(...)` check
reports the missing-field 400 error and nothing is written. -/
theorem zero_value_treated_as_missing :
    (∀ (s : State) (jobId : Nat) (now : Int) (d : LaborInput),
      (findJobCard s jobId).isSome → d.hoursWorked = some 0 →
      add_labor_entry s jobId now d =
        ({ status := 400, error := some "technician_id and hours_worked are required" }, s)) ∧
    (∀ (s : State) (jobId : Nat) (d : PartsInput),
      (findJobCard s jobId).isSome → d.quantity = some 0 →
      add_parts_used s jobId d =
        ({ status := 400, error := some "part_id and quantity are required" }, s)) := by
  constructor
  · intro s jobId now d hjob hq
    obtain ⟨job, hjob⟩ := Option.isSome_iff_exists.mp hjob
    simp [add_labor_entry, hjob, falsyQ, hq]
  · intro s jobId d hjob hq
    obtain ⟨job, hjob⟩ := Option.isSome_iff_exists.mp hjob
    simp [add_parts_used, hjob, falsyInt, hq]

/-- Witness for `zero_value_treated_as_missing` on the demo store. -/
theorem zero_value_treated_as_missing_witness :
    add_labor_entry demoState 10 0 { technicianId := some 2, hoursWorked := some 0 } =
      ({ status := 400, error := some "technician_id and hours_worked are required" },
       demoState) ∧
    add_parts_used demoState 10 { partId := some 1, quantity := some 0 } =
      ({ status := 400, error := some "part_id and quantity are required" }, demoState) :=
  ⟨zero_value_treated_as_missing.1 demoState 10 0
      { technicianId := some 2, hoursWorked := some 0 } (by decide) rfl,
   zero_value_treated_as_missing.2 demoState 10
      { partId := some 1, quantity := some 0 } (by decide) rfl⟩

end Fleet
